import Mathlib

/-!
Verification of the hosting-google proxy and UI logic.

The Express server (`server.js`) is embedded directly from the source.
The browser-side logic (`public/script.js`: filter building, pagination,
count fetching, page state) is not among the available sources, so those
definitions are modelled from the specification, as marked in their
doc comments.
-/

namespace HostingGoogle

/-- JSON values as handled by express and axios: null, booleans, numbers
(modelled as integers), strings, arrays and objects. -/
inductive Json : Type where
  | null : Json
  | bool : Bool → Json
  | num : Int → Json
  | str : String → Json
  | arr : List Json → Json
  | obj : List (String × Json) → Json

/-- Field lookup in a JSON object; `none` on non-objects or missing keys. -/
def Json.lookupField : Json → String → Option Json
  | .obj fields, key => List.lookup key fields
  | _, _ => none

/-- An upstream HTTP response as seen through axios: `error.response.status`
and `error.response.data` (or `response.status` and `response.data` on
success). -/
structure UpstreamResponse where
  status : Nat
  data : Json

/-- Outcome of an axios POST: axios resolves exactly on 2xx (`success`),
rejects with `error.response` set on a non-2xx upstream reply (`httpError`),
and rejects with `error.response` undefined when no response arrived
(`networkError`). -/
inductive AxiosOutcome : Type where
  | success : UpstreamResponse → AxiosOutcome
  | httpError : UpstreamResponse → AxiosOutcome
  | networkError : AxiosOutcome

/-- The request the proxy sends upstream: target URL and JSON body. -/
structure SentRequest where
  url : String
  body : Json

/-- The HTTP response the proxy returns to its own client. -/
structure ProxyResponse where
  status : Nat
  body : Json

/-- server.js line 14: the upstream award-search endpoint URL. -/
def searchUrl : String := "https://api.usaspending.gov/api/v2/search/spending_by_award/"

/-- server.js line 30: the upstream award-count endpoint URL. -/
def countUrl : String := "https://api.usaspending.gov/api/v2/search/spending_by_award_count/"

/-- server.js lines 21 and 37: the fixed detail message of both catch blocks. -/
def errorDetail : String := "Error proxying request to USA Spending API."

/-- server.js lines 20-23 and 36-39: the JSON error body
`{ detail: ..., originalError: ... }` built in the catch blocks. -/
def errorBody (originalError : Json) : Json :=
  Json.obj [("detail", Json.str errorDetail), ("originalError", originalError)]

/-- server.js lines 12-25: the POST /api/search handler. It posts `req.body`
to `searchUrl`; on success it replies `res.json(response.data)` (status 200);
in the catch block it replies with `error.response.status` (or 500 when
`error.response` is undefined) and the error body. The pair returned here
records the request actually sent upstream together with the proxy response. -/
def searchHandler (upstream : SentRequest → AxiosOutcome) (reqBody : Json) :
    SentRequest × ProxyResponse :=
  let sent : SentRequest := { url := searchUrl, body := reqBody }
  match upstream sent with
  | .success resp => (sent, { status := 200, body := resp.data })
  | .httpError resp => (sent, { status := resp.status, body := errorBody resp.data })
  | .networkError => (sent, { status := 500, body := errorBody Json.null })

/-- server.js lines 28-41: the POST /api/count handler, identical to the
search handler except for the upstream URL. -/
def countHandler (upstream : SentRequest → AxiosOutcome) (reqBody : Json) :
    SentRequest × ProxyResponse :=
  let sent : SentRequest := { url := countUrl, body := reqBody }
  match upstream sent with
  | .success resp => (sent, { status := 200, body := resp.data })
  | .httpError resp => (sent, { status := resp.status, body := errorBody resp.data })
  | .networkError => (sent, { status := 500, body := errorBody Json.null })

/-- server.js line 5: `const port = 3000`. -/
def port : Nat := 3000

/-- server.js line 43: `app.listen(port, ...)`. The listening port as a
function of the process environment; server.js never reads the environment
(there is no occurrence of `process.env` in the file), so the parameter is
unused and the result is the hardcoded constant. -/
def listenPort (_env : String → Option String) : Nat := port

/-! ### Client-side model (public/script.js is not among the sources) -/

/-- Modelled from the spec: the raw UI form state read at submit time
(section 3 FormState). Dates are modelled as local calendar day numbers
(integers); the YYYY-MM-DD string formatting is not modelled. `none` on a
date means the field is absent; empty string on the other fields means
unset. -/
structure FormState where
  keyword : String
  agencyType : String
  subAgencyType : String
  agencyDetails : String
  placeOfPerformanceScope : String
  recipientScope : String
  recipientSearchText : String
  awardType : String
  startDate : Option Int
  endDate : Option Int
  dateType : String
deriving DecidableEq

/-- Modelled from the spec: one entry of the `agencies` filter
(section 4.1 resolution table). `toptier_name` is optional. -/
structure Agency where
  type : String
  tier : String
  name : String
  toptier_name : Option String
deriving DecidableEq

/-- Modelled from the spec: one `time_period` entry with day-number dates. -/
structure TimePeriod where
  start_date : Int
  end_date : Int
  date_type : Option String
deriving DecidableEq, Inhabited

/-- Number of calendar days a time period spans, both bounds inclusive. -/
def windowSpanDays (tp : TimePeriod) : Int := tp.end_date - tp.start_date + 1

/-- Modelled from the spec: the derived filter payload (section 3 FilterSet).
Optional fields use `none` for an omitted key; `agencies = []` means the
`agencies` key is absent. `award_type_codes` is always present by type. -/
structure FilterSet where
  keywords : Option (List String)
  award_type_codes : List String
  time_period : List TimePeriod
  agencies : List Agency
  place_of_performance_scope : Option String
  recipient_scope : Option String
  recipient_search_text : Option (List String)
deriving DecidableEq

/-- Modelled from the spec: the four contract codes, also the fallback
default set (section 4.1 award-type resolution, cases 1 and 5). -/
def contractCodes : List String := ["A", "B", "C", "D"]

/-- Modelled from the spec: the four grant codes (section 4.1, case 3). -/
def grantCodes : List String := ["02", "03", "04", "05"]

/-- Modelled from the spec: the eight IDV codes (section 4.1, case 2). -/
def idvCodes : List String :=
  ["IDV_A", "IDV_B", "IDV_B_A", "IDV_B_B", "IDV_B_C", "IDV_C", "IDV_D", "IDV_E"]

/-- Modelled from the spec: the set of recognized single award-type codes
(section 6 award type code enum). -/
def singleAwardCodes : List String := contractCodes ++ grantCodes ++ idvCodes

/-- Modelled from the spec: award-type resolution in priority order
(section 4.1): the three group aliases, then a recognized single code,
then the fallback default set; total, so no error is ever raised. -/
def resolveAwardTypeCodes (awardType : String) : List String :=
  if awardType = "all_contracts" then contractCodes
  else if awardType = "all_idvs" then idvCodes
  else if awardType = "all_grants" then grantCodes
  else if awardType ∈ singleAwardCodes then [awardType]
  else contractCodes

/-- Modelled from the spec: `agencyDetails` is used directly as the `type`
field when set, defaulting to "awarding" when empty (section 4.1 table). -/
def orAwarding (agencyDetails : String) : String :=
  if agencyDetails = "" then "awarding" else agencyDetails

/-- Modelled from the spec: the agency resolution table of section 4.1,
evaluated top to bottom, first match wins. A set `subAgencyType` yields a
subtier entry (regardless of `agencyType`); otherwise a set `agencyType`
yields a toptier entry; otherwise no entry (table row: empty, empty, any
yields no agencies key). -/
def resolveAgencies (agencyType subAgencyType agencyDetails : String) : List Agency :=
  if subAgencyType ≠ "" then
    [{ type := orAwarding agencyDetails, tier := "subtier",
       name := subAgencyType, toptier_name := none }]
  else if agencyType ≠ "" then
    [{ type := orAwarding agencyDetails, tier := "toptier",
       name := agencyType, toptier_name := some agencyType }]
  else []

/-- Modelled from the spec: the default window contains 180 calendar days,
the last of which is today (inclusive of today), so it starts 179 days
before today (section 4.1 default-date policy). -/
def defaultWindowStart (today : Int) : Int := today - 179

/-- Modelled from the spec: split the comma-separated recipient search text,
trim each token, drop empty tokens (section 4.1). -/
def splitRecipientSearchText (s : String) : List String :=
  ((s.splitOn ",").map String.trim).filter (fun t => t ≠ "")

/-- Modelled from the spec: `buildFilters(formState)` of section 4.1, the
pure filter-construction function of public/script.js, which is not among
the sources. `today` is the current local calendar day at call time. -/
def buildFilters (today : Int) (fs : FormState) : FilterSet :=
  let kw := fs.keyword.trim
  let recips := splitRecipientSearchText fs.recipientSearchText
  let pop := fs.placeOfPerformanceScope.trim
  let rscope := fs.recipientScope.trim
  { keywords := if kw = "" then none else some [kw]
    award_type_codes := resolveAwardTypeCodes fs.awardType
    time_period := [{ start_date := fs.startDate.getD (defaultWindowStart today)
                      end_date := fs.endDate.getD today
                      date_type := if fs.dateType = "" then none else some fs.dateType }]
    agencies := resolveAgencies fs.agencyType fs.subAgencyType fs.agencyDetails
    place_of_performance_scope := if pop = "" then none else some pop
    recipient_scope := if rscope = "" then none else some rscope
    recipient_search_text := if recips = [] then none else some recips }

/-- The single time-period entry of a filter set (buildFilters always
produces exactly one). -/
def firstTimePeriod (f : FilterSet) : TimePeriod :=
  f.time_period.headI

/-- Modelled from the spec: upstream page metadata, with both fields
optional (section 4.4: page defaults to 1, hasNext to false when absent). -/
structure PageMetadata where
  page : Option Int
  hasNext : Option Bool

/-- Modelled from the spec: a search response, `{results, page_metadata}`;
result rows are opaque JSON values. -/
structure ApiResult where
  results : List Json
  page_metadata : PageMetadata

/-- Modelled from the spec: the output of `computePagination`
(section 4.4). -/
structure Pagination where
  startRecord : Int
  endRecord : Int
  prevEnabled : Bool
  nextEnabled : Bool
  prevVisible : Bool
  nextVisible : Bool
deriving DecidableEq

/-- Modelled from the spec: the fixed page size (section 4.4: limit is
fixed at 10). -/
def pageLimit : Int := 10

/-- Modelled from the spec: `computePagination(apiResult)` of section 4.4,
part of public/script.js, which is not among the sources. -/
def computePagination (r : ApiResult) : Pagination :=
  let page := r.page_metadata.page.getD 1
  let hasNext := r.page_metadata.hasNext.getD false
  let startRecord := (page - 1) * pageLimit + 1
  let endRecord :=
    if hasNext then startRecord + pageLimit - 1
    else startRecord + (r.results.length : Int) - 1
  { startRecord := startRecord
    endRecord := endRecord
    prevEnabled := page != 1
    nextEnabled := hasNext
    prevVisible := page != 1
    nextVisible := hasNext }

/-- Modelled from the spec: outcome of the POST to /api/count as seen by
the client: a successful reply carries the `results` mapping from bucket
names to integer counts; `failure` covers both a non-2xx response and a
network failure (section 4.2). -/
inductive CountOutcome : Type where
  | success : List (String × Int) → CountOutcome
  | failure : CountOutcome

/-- Modelled from the spec: `fetchTotalCount(filters)` of section 4.2, part
of public/script.js, which is not among the sources: on success it sums all
values of the `results` mapping; on any failure it returns 0. It is a total
function, so it never throws. -/
def fetchTotalCount (outcome : CountOutcome) : Int :=
  match outcome with
  | .success results => (results.map Prod.snd).sum
  | .failure => 0

/-- Modelled from the spec: outcome of the POST to /api/search as seen by
the client (section 4.2: on failure an error is surfaced to the user). -/
inductive SearchOutcome : Type where
  | success : ApiResult → SearchOutcome
  | failure : String → SearchOutcome

/-- Modelled from the spec: what the results area shows after one fetch
cycle: either the rendered results with a total count, or an error
message. -/
inductive Display : Type where
  | resultsTable : ApiResult → Int → Display
  | errorMessage : String → Display

/-- Modelled from the spec: one `fetchResults` cycle (section 4.2): the
count call is made first and its failure is absorbed into a total of 0; the
results render from the search outcome alone. -/
def fetchResults (countOutcome : CountOutcome) (searchOutcome : SearchOutcome) : Display :=
  let total := fetchTotalCount countOutcome
  match searchOutcome with
  | .success r => .resultsTable r total
  | .failure msg => .errorMessage msg

/-- Modelled from the spec: the mutable UI state of public/script.js, which
is not among the sources: the 1-based `currentPage` and the `hasNext` flag
of the latest ApiResult, which gates the Next button (sections 3 and 4.4). -/
structure UIState where
  currentPage : Int
  lastHasNext : Bool
deriving DecidableEq

/-- Modelled from the spec: the UI transitions of section 4.4. Submitting
the search form resets `currentPage` to 1 before fetching; Prev decrements
by exactly 1 and is only invoked when enabled (page greater than 1); Next
increments by exactly 1 and is only invoked when enabled (`hasNext` of the
latest result). Each transition ends with the `hasNext` flag of the fresh
fetch; `currentPage` is never assigned from `page_metadata.page`. -/
inductive Step : UIState → UIState → Prop where
  | submit (s : UIState) (h : Bool) : Step s ⟨1, h⟩
  | prev (s : UIState) (h : Bool) (hp : 1 < s.currentPage) :
      Step s ⟨s.currentPage - 1, h⟩
  | next (s : UIState) (h : Bool) (hn : s.lastHasNext = true) :
      Step s ⟨s.currentPage + 1, h⟩

/-- Modelled from the spec: reachable UI states, starting from page 1 with
no results yet. -/
inductive Reachable : UIState → Prop where
  | init : Reachable ⟨1, false⟩
  | step {s t : UIState} : Reachable s → Step s t → Reachable t

/-- A convenient all-empty form state for concrete evaluations. -/
def emptyForm : FormState :=
  { keyword := "", agencyType := "", subAgencyType := "", agencyDetails := ""
    placeOfPerformanceScope := "", recipientScope := "", recipientSearchText := ""
    awardType := "", startDate := none, endDate := none, dateType := "" }

/-- The spec example form state: agencyType DOD, subAgencyType Navy,
agencyDetails funding. -/
def dodNavyFundingForm : FormState :=
  { emptyForm with
      agencyType := "DOD", subAgencyType := "Navy", agencyDetails := "funding" }

/-- The spec example form state with only agencyType DOD set. -/
def dodForm : FormState :=
  { emptyForm with agencyType := "DOD" }

/-- A form state with only agencyDetails set. -/
def fundingOnlyForm : FormState :=
  { emptyForm with agencyDetails := "funding" }

/-- The spec example API result: page 3, no further page, 10 result rows. -/
def page3Result : ApiResult :=
  { results := List.replicate 10 Json.null
    page_metadata := { page := some 3, hasNext := some false } }

/-! ### Theorems -/

/-- Claim C1: for every request to POST /api/search or POST /api/count whose
upstream call fails, the proxy responds with the upstream HTTP status when
an upstream response exists and with status 500 otherwise, and the response
body is the object with the string field `detail` and the field
`originalError` equal to the upstream response body when one exists and
null otherwise. -/
theorem C1_proxy_error_contract (upstream : SentRequest → AxiosOutcome)
    (reqBody : Json) (resp : UpstreamResponse) :
    (upstream { url := searchUrl, body := reqBody } = .httpError resp →
      (searchHandler upstream reqBody).2 =
        { status := resp.status, body := errorBody resp.data }) ∧
    (upstream { url := searchUrl, body := reqBody } = .networkError →
      (searchHandler upstream reqBody).2 =
        { status := 500, body := errorBody Json.null }) ∧
    (upstream { url := countUrl, body := reqBody } = .httpError resp →
      (countHandler upstream reqBody).2 =
        { status := resp.status, body := errorBody resp.data }) ∧
    (upstream { url := countUrl, body := reqBody } = .networkError →
      (countHandler upstream reqBody).2 =
        { status := 500, body := errorBody Json.null }) := by
  refine ⟨?_, ?_, ?_, ?_⟩ <;> intro h <;>
    simp [searchHandler, countHandler, h]

/-- Witness for C1 at concrete upstream outcomes: a 503 with body "bad" on
the search endpoint, and a network failure on the count endpoint. -/
theorem C1_proxy_error_contract_witness :
    (searchHandler (fun _ => .httpError ⟨503, Json.str "bad"⟩) Json.null).2 =
      { status := 503, body := errorBody (Json.str "bad") } ∧
    (countHandler (fun _ => .networkError) Json.null).2 =
      { status := 500, body := errorBody Json.null } :=
  ⟨(C1_proxy_error_contract (fun _ => .httpError ⟨503, Json.str "bad"⟩)
      Json.null ⟨503, Json.str "bad"⟩).1 rfl,
   (C1_proxy_error_contract (fun _ => .networkError)
      Json.null ⟨503, Json.str "bad"⟩).2.2.2 rfl⟩

/-- Claim C2: each endpoint forwards the parsed JSON request body verbatim,
without validation or modification, to its upstream endpoint, and on an
upstream 2xx response relays the upstream JSON body unchanged as its own
response. -/
theorem C2_pass_through (upstream : SentRequest → AxiosOutcome)
    (reqBody : Json) (resp : UpstreamResponse) :
    (searchHandler upstream reqBody).1 = { url := searchUrl, body := reqBody } ∧
    (countHandler upstream reqBody).1 = { url := countUrl, body := reqBody } ∧
    (upstream { url := searchUrl, body := reqBody } = .success resp →
      (searchHandler upstream reqBody).2 = { status := 200, body := resp.data }) ∧
    (upstream { url := countUrl, body := reqBody } = .success resp →
      (countHandler upstream reqBody).2 = { status := 200, body := resp.data }) := by
  refine ⟨?_, ?_, ?_, ?_⟩
  · cases h : upstream { url := searchUrl, body := reqBody } <;>
      simp [searchHandler, h]
  · cases h : upstream { url := countUrl, body := reqBody } <;>
      simp [countHandler, h]
  · intro h; simp [searchHandler, h]
  · intro h; simp [countHandler, h]

/-- Witness for C2 at a concrete 2xx upstream outcome. -/
theorem C2_pass_through_witness :
    (searchHandler (fun _ => .success ⟨200, Json.str "ok"⟩) (Json.str "q")).2 =
      { status := 200, body := Json.str "ok" } ∧
    (countHandler (fun _ => .success ⟨200, Json.str "ok"⟩) (Json.str "q")).2 =
      { status := 200, body := Json.str "ok" } :=
  ⟨(C2_pass_through (fun _ => .success ⟨200, Json.str "ok"⟩)
      (Json.str "q") ⟨200, Json.str "ok"⟩).2.2.1 rfl,
   (C2_pass_through (fun _ => .success ⟨200, Json.str "ok"⟩)
      (Json.str "q") ⟨200, Json.str "ok"⟩).2.2.2 rfl⟩

/-- Claim C9: the server always listens on the constant port 3000: the
listening port is a hardcoded literal, identical under every process
environment, and in particular does not depend on a PORT variable. -/
theorem C9_listen_port_constant (env env' : String → Option String) :
    listenPort env = 3000 ∧ listenPort env = listenPort env' :=
  ⟨rfl, rfl⟩

/-- Claim C10: every error response of either proxy endpoint carries the
same fixed `detail` string, independent of the upstream error; upstream
text appears only under `originalError`. -/
theorem C10_error_detail_fixed (upstream : SentRequest → AxiosOutcome)
    (reqBody : Json) (resp : UpstreamResponse) :
    (upstream { url := searchUrl, body := reqBody } = .httpError resp →
      Json.lookupField (searchHandler upstream reqBody).2.body "detail" =
        some (Json.str errorDetail) ∧
      Json.lookupField (searchHandler upstream reqBody).2.body "originalError" =
        some resp.data) ∧
    (upstream { url := searchUrl, body := reqBody } = .networkError →
      Json.lookupField (searchHandler upstream reqBody).2.body "detail" =
        some (Json.str errorDetail) ∧
      Json.lookupField (searchHandler upstream reqBody).2.body "originalError" =
        some Json.null) ∧
    (upstream { url := countUrl, body := reqBody } = .httpError resp →
      Json.lookupField (countHandler upstream reqBody).2.body "detail" =
        some (Json.str errorDetail) ∧
      Json.lookupField (countHandler upstream reqBody).2.body "originalError" =
        some resp.data) ∧
    (upstream { url := countUrl, body := reqBody } = .networkError →
      Json.lookupField (countHandler upstream reqBody).2.body "detail" =
        some (Json.str errorDetail) ∧
      Json.lookupField (countHandler upstream reqBody).2.body "originalError" =
        some Json.null) := by
  refine ⟨?_, ?_, ?_, ?_⟩ <;> intro h <;>
    simp [searchHandler, countHandler, h, errorBody, Json.lookupField, List.lookup]

/-- Witness for C10 at concrete upstream failures. -/
theorem C10_error_detail_fixed_witness :
    Json.lookupField
      (searchHandler (fun _ => .httpError ⟨418, Json.str "teapot"⟩) Json.null).2.body
      "detail" = some (Json.str errorDetail) ∧
    Json.lookupField
      (countHandler (fun _ => .networkError) Json.null).2.body
      "originalError" = some Json.null :=
  ⟨((C10_error_detail_fixed (fun _ => .httpError ⟨418, Json.str "teapot"⟩)
      Json.null ⟨418, Json.str "teapot"⟩).1 rfl).1,
   ((C10_error_detail_fixed (fun _ => .networkError)
      Json.null ⟨418, Json.str "teapot"⟩).2.2.2 rfl).2⟩

/-- Claim C3: buildFilters resolves award_type_codes in priority order:
the three group aliases, a single recognized code, and the fallback default
set for any other value, with no error raised (the resolution function is
total); award_type_codes is always present (it is a mandatory field of the
produced FilterSet). -/
theorem C3_award_type_resolution (today : Int) (fs : FormState) :
    (fs.awardType = "all_contracts" →
      (buildFilters today fs).award_type_codes = ["A", "B", "C", "D"]) ∧
    (fs.awardType = "all_idvs" →
      (buildFilters today fs).award_type_codes =
        ["IDV_A", "IDV_B", "IDV_B_A", "IDV_B_B", "IDV_B_C", "IDV_C", "IDV_D", "IDV_E"]) ∧
    (fs.awardType = "all_grants" →
      (buildFilters today fs).award_type_codes = ["02", "03", "04", "05"]) ∧
    (fs.awardType ∈ singleAwardCodes →
      (buildFilters today fs).award_type_codes = [fs.awardType]) ∧
    (fs.awardType ∉ (["all_contracts", "all_idvs", "all_grants"] : List String) →
      fs.awardType ∉ singleAwardCodes →
      (buildFilters today fs).award_type_codes = ["A", "B", "C", "D"]) := by
  refine ⟨?_, ?_, ?_, ?_, ?_⟩
  · intro h; simp [buildFilters, resolveAwardTypeCodes, h, contractCodes]
  · intro h; simp [buildFilters, resolveAwardTypeCodes, h, idvCodes]
  · intro h; simp [buildFilters, resolveAwardTypeCodes, h, grantCodes]
  · intro h
    have h1 : fs.awardType ≠ "all_contracts" := by
      intro heq; rw [heq] at h; exact absurd h (by decide)
    have h2 : fs.awardType ≠ "all_idvs" := by
      intro heq; rw [heq] at h; exact absurd h (by decide)
    have h3 : fs.awardType ≠ "all_grants" := by
      intro heq; rw [heq] at h; exact absurd h (by decide)
    simp [buildFilters, resolveAwardTypeCodes, h, h1, h2, h3]
  · intro hali hmem
    simp only [List.mem_cons, List.not_mem_nil, or_false, not_or] at hali
    obtain ⟨n1, n2, n3⟩ := hali
    simp [buildFilters, resolveAwardTypeCodes, n1, n2, n3, hmem, contractCodes]

/-- Witness for C3 at the single code "03" and at an empty award type. -/
theorem C3_award_type_resolution_witness :
    (buildFilters 0 { emptyForm with awardType := "03" }).award_type_codes = ["03"] ∧
    (buildFilters 0 emptyForm).award_type_codes = ["A", "B", "C", "D"] :=
  ⟨(C3_award_type_resolution 0 { emptyForm with awardType := "03" }).2.2.2.1
      (by decide),
   (C3_award_type_resolution 0 emptyForm).2.2.2.2 (by decide) (by decide)⟩

/-- Claim C4: only the missing date bounds are defaulted, to the window of
180 days ending today; a present bound is preserved unchanged; with both
bounds absent, the single time_period entry spans exactly 180 days ending
today. -/
theorem C4_default_dates (today : Int) (fs : FormState) :
    (buildFilters today fs).time_period = [firstTimePeriod (buildFilters today fs)] ∧
    (∀ s, fs.startDate = some s →
      (firstTimePeriod (buildFilters today fs)).start_date = s) ∧
    (∀ e, fs.endDate = some e →
      (firstTimePeriod (buildFilters today fs)).end_date = e) ∧
    (fs.startDate = none →
      (firstTimePeriod (buildFilters today fs)).start_date = defaultWindowStart today) ∧
    (fs.endDate = none →
      (firstTimePeriod (buildFilters today fs)).end_date = today) ∧
    (fs.startDate = none → fs.endDate = none →
      windowSpanDays (firstTimePeriod (buildFilters today fs)) = 180 ∧
      (firstTimePeriod (buildFilters today fs)).end_date = today) := by
  refine ⟨rfl, ?_, ?_, ?_, ?_, ?_⟩
  · intro s h; simp [buildFilters, firstTimePeriod, h]
  · intro e h; simp [buildFilters, firstTimePeriod, h]
  · intro h; simp [buildFilters, firstTimePeriod, h]
  · intro h; simp [buildFilters, firstTimePeriod, h]
  · intro h1 h2
    refine ⟨?_, by simp [buildFilters, firstTimePeriod, h2]⟩
    simp [buildFilters, firstTimePeriod, h1, h2, windowSpanDays,
      defaultWindowStart]

/-- Witness for C4: a present startDate is preserved while endDate
defaults, and with both bounds absent the window spans 180 days ending
today (here day number 1000). -/
theorem C4_default_dates_witness :
    (firstTimePeriod (buildFilters 1000
      { emptyForm with startDate := some 5 })).start_date = 5 ∧
    windowSpanDays (firstTimePeriod (buildFilters 1000 emptyForm)) = 180 ∧
    (firstTimePeriod (buildFilters 1000 emptyForm)).end_date = 1000 :=
  ⟨(C4_default_dates 1000 { emptyForm with startDate := some 5 }).2.1 5 rfl,
   ((C4_default_dates 1000 emptyForm).2.2.2.2.2 rfl rfl).1,
   ((C4_default_dates 1000 emptyForm).2.2.2.2.2 rfl rfl).2⟩

/-- Claim C5, counterexample: with agencyType and subAgencyType empty but
agencyDetails set to "funding", no agencies entry is produced although the
three inputs are not all empty, so "none exactly when all three are empty"
fails (agencyDetails alone never produces an entry, per the resolution
table). -/
theorem C5_exactly_when_counterexample :
    ¬((buildFilters 0 fundingOnlyForm).agencies = [] ↔
      fundingOnlyForm.agencyType = "" ∧
      fundingOnlyForm.subAgencyType = "" ∧
      fundingOnlyForm.agencyDetails = "") := by
  decide

/-- Claim C5 as amended: buildFilters produces at most one agencies entry,
and none exactly when agencyType and subAgencyType are both empty; a
non-empty subAgencyType yields the subtier entry regardless of agencyType
(the output is invariant under changing agencyType); with subAgencyType
empty and agencyType non-empty, the toptier entry is produced. -/
theorem C5_agencies_resolution (today : Int) (fs : FormState) :
    (buildFilters today fs).agencies.length ≤ 1 ∧
    ((buildFilters today fs).agencies = [] ↔
      fs.agencyType = "" ∧ fs.subAgencyType = "") ∧
    (fs.subAgencyType ≠ "" →
      (buildFilters today fs).agencies =
        [{ type := orAwarding fs.agencyDetails, tier := "subtier",
           name := fs.subAgencyType, toptier_name := none }]) ∧
    (∀ a a', fs.subAgencyType ≠ "" →
      (buildFilters today { fs with agencyType := a }).agencies =
        (buildFilters today { fs with agencyType := a' }).agencies) ∧
    (fs.subAgencyType = "" → fs.agencyType ≠ "" →
      (buildFilters today fs).agencies =
        [{ type := orAwarding fs.agencyDetails, tier := "toptier",
           name := fs.agencyType, toptier_name := some fs.agencyType }]) := by
  refine ⟨?_, ?_, ?_, ?_, ?_⟩
  · simp only [buildFilters, resolveAgencies]
    split_ifs <;> simp
  · simp only [buildFilters, resolveAgencies]
    split_ifs <;> simp_all
  · intro h; simp [buildFilters, resolveAgencies, h]
  · intro a a' h; simp [buildFilters, resolveAgencies, h]
  · intro h1 h2; simp [buildFilters, resolveAgencies, h1, h2]

/-- Witness for C5 at the two concrete examples of the spec: DOD/Navy with
details "funding", and DOD alone. -/
theorem C5_agencies_resolution_witness :
    (buildFilters 0 dodNavyFundingForm).agencies =
      [{ type := "funding", tier := "subtier", name := "Navy", toptier_name := none }] ∧
    (buildFilters 0 dodForm).agencies =
      [{ type := "awarding", tier := "toptier", name := "DOD",
         toptier_name := some "DOD" }] := by
  constructor
  · have h := (C5_agencies_resolution 0 dodNavyFundingForm).2.2.1 (by decide)
    simpa [dodNavyFundingForm, emptyForm, orAwarding] using h
  · have h := (C5_agencies_resolution 0 dodForm).2.2.2.2 (by decide) (by decide)
    simpa [dodForm, emptyForm, orAwarding] using h

/-- Claim C6: computePagination with the fixed limit 10 returns
startRecord equal to (page-1)*10+1, endRecord equal to startRecord+9 when
hasNext and startRecord+resultsCount-1 otherwise, prev enablement and
visibility exactly when the page is not 1, next enablement and visibility
equal to hasNext, with page defaulting to 1 and hasNext to false when
absent; in particular page 3, hasNext false, 10 results yields 21, 30,
prev enabled, next disabled. -/
theorem C6_compute_pagination (r : ApiResult) :
    (computePagination r).startRecord = (r.page_metadata.page.getD 1 - 1) * 10 + 1 ∧
    (computePagination r).endRecord =
      (if r.page_metadata.hasNext.getD false then (computePagination r).startRecord + 9
       else (computePagination r).startRecord + (r.results.length : Int) - 1) ∧
    ((computePagination r).prevEnabled = true ↔ r.page_metadata.page.getD 1 ≠ 1) ∧
    ((computePagination r).prevVisible = true ↔ r.page_metadata.page.getD 1 ≠ 1) ∧
    (computePagination r).nextEnabled = r.page_metadata.hasNext.getD false ∧
    (computePagination r).nextVisible = r.page_metadata.hasNext.getD false ∧
    computePagination page3Result =
      { startRecord := 21, endRecord := 30, prevEnabled := true,
        nextEnabled := false, prevVisible := true, nextVisible := false } := by
  refine ⟨?_, ?_, ?_, ?_, ?_, ?_, ?_⟩
  · simp [computePagination, pageLimit]
  · simp only [computePagination, pageLimit]
    split_ifs <;> omega
  · simp [computePagination]
  · simp [computePagination]
  · simp [computePagination]
  · simp [computePagination]
  · decide

/-- Claim C7: fetchTotalCount returns the sum of all values of the results
mapping of a successful count response (15 on the contracts 12, grants 3
example) and 0 on any failure; it is a total function (never throws), and
fetchResults renders the results table from a successful search outcome
regardless of the count outcome, so a failed count call never prevents the
paged results from rendering. -/
theorem C7_fetch_total_count (m : List (String × Int))
    (countOutcome : CountOutcome) (r : ApiResult) :
    fetchTotalCount (CountOutcome.success m) = (m.map Prod.snd).sum ∧
    fetchTotalCount CountOutcome.failure = 0 ∧
    fetchTotalCount (CountOutcome.success [("contracts", 12), ("grants", 3)]) = 15 ∧
    fetchResults countOutcome (SearchOutcome.success r) =
      Display.resultsTable r (fetchTotalCount countOutcome) :=
  ⟨rfl, rfl, by decide, rfl⟩

/-- Claim C8: in every reachable UI state, currentPage is at least 1: the
Step relation encodes that submitting resets currentPage to 1 before
fetching, Prev decrements by exactly 1 only when the page exceeds 1, Next
increments by exactly 1 only when enabled, and currentPage is never
assigned from page_metadata. -/
theorem C8_current_page_invariant (s : UIState) (hs : Reachable s) :
    1 ≤ s.currentPage := by
  induction hs with
  | init => show (1 : Int) ≤ 1; omega
  | @step s t hr hst ih =>
      cases hst with
      | submit h => show (1 : Int) ≤ 1; omega
      | prev h hp => show 1 ≤ s.currentPage - 1; omega
      | next h hn => show 1 ≤ s.currentPage + 1; omega

/-- Witness for C8: the state reached by submitting (page 1, more pages
available) and clicking Next (page 2) satisfies the invariant. -/
theorem C8_current_page_invariant_witness :
    1 ≤ (UIState.mk 2 false).currentPage :=
  C8_current_page_invariant ⟨2, false⟩
    (Reachable.step (Reachable.step Reachable.init (Step.submit ⟨1, false⟩ true))
      (Step.next ⟨1, true⟩ false rfl))

end HostingGoogle
